import Mathlib

/-!
Shallow embedding of the session/runner lifecycle of `Brad/agent_runner.py`,
the HTTP handlers of `Brad/fastapi_app.py`, and the image tool of
`Angelina/angelina/tools.py`.

Python dictionaries (`self.sessions`, `self.runners`) are modelled as
insertion-ordered association lists `List (String × α)`; a fresh key is
appended at the end, matching CPython dict insertion order.  The external
agent engine (`session_service.create_session`, `runner.run_async`) and the
external image endpoint are out of scope in the spec and are passed in as
parameters.  Raised Python exceptions are modelled with `Except String`
carrying `str(e)`.
-/

namespace AgentTrial

/-- Keys of an association list, in insertion order (Python `dict.keys()`). -/
def dictKeys {α : Type} (l : List (String × α)) : List String :=
  l.map Prod.fst

/-- Python `key in d` for a dict modelled as an association list. -/
def hasKey {α : Type} (l : List (String × α)) (k : String) : Prop :=
  k ∈ dictKeys l

instance {α : Type} (l : List (String × α)) (k : String) : Decidable (hasKey l k) :=
  inferInstanceAs (Decidable (k ∈ dictKeys l))

/-- Python `d[key]` (first binding of the key; dict keys are unique). -/
def dictGet {α : Type} : List (String × α) → String → Option α
  | [], _ => none
  | (k', v) :: rest, k => if k' = k then some v else dictGet rest k

/-- The mutable state of an `AgentRunner` instance: `self.sessions` and
`self.runners`.  `σ` is the opaque session handle returned by the external
engine, `ρ` the opaque `Runner` object. -/
structure AgentRunnerState (σ ρ : Type) where
  sessions : List (String × σ)
  runners : List (String × ρ)
deriving Repr, DecidableEq

/-- The empty registry, as set up in `AgentRunner.__init__`. -/
def initialState (σ ρ : Type) : AgentRunnerState σ ρ := ⟨[], []⟩

/-- `AgentRunner.prepare_session(user_id, session_id)`.

`createSession user_id session_id` models
`await self.session_service.create_session(...)`: `.ok s` is the returned
session object, `.error e` a raised exception with `str(e) = e` (re-raised by
the `except` clause after logging).  `mkRunner` models the
`Runner(agent=..., app_name=..., session_service=...)` constructor, which
cannot fail here.

The result is the outcome (`.ok` returned session id / `.error` propagated
exception text) paired with the state of the two dicts when the call
finishes, faithfully reflecting that the two insertions happen together
after `create_session` has succeeded. -/
def prepare_session {σ ρ : Type}
    (createSession : String → String → Except String σ) (mkRunner : ρ)
    (st : AgentRunnerState σ ρ) (user_id : String) (session_id : Option String) :
    Except String String × AgentRunnerState σ ρ :=
  let session_id :=
    match session_id with
    | none => "session_" ++ user_id ++ "_" ++ Nat.repr (st.sessions.length + 1)
    | some s => s
  let session_key := user_id ++ "_" ++ session_id
  if hasKey st.sessions session_key then
    (Except.ok session_id, st)
  else
    match createSession user_id session_id with
    | Except.error e => (Except.error e, st)
    | Except.ok session =>
        (Except.ok session_id,
         { sessions := st.sessions ++ [(session_key, session)],
           runners := st.runners ++ [(session_key, mkRunner)] })

/-- `s.startswith(pre)` on the underlying character lists. -/
def dataStartsWith : List Char → List Char → Bool
  | [], _ => true
  | _ :: _, [] => false
  | a :: as, b :: bs => a == b && dataStartsWith as bs

/-- Python `key.startswith(pre)`. -/
def strStartsWith (key pre : String) : Bool :=
  dataStartsWith pre.data key.data

/-- Python `s.split('_', 1)[1]`: everything after the first underscore.
In `get_session_info` every key passing the prefix filter contains an
underscore (the filter prefix ends in `'_'`), so the index `[1]` is total
there. -/
def splitOnceTail (s : String) : String :=
  String.mk ((s.data.dropWhile (fun c => c ≠ '_')).drop 1)

/-- The dictionary returned by `AgentRunner.get_session_info(user_id)`. -/
structure SessionInfoResult where
  user_id : String
  active_sessions : List String
  total_sessions : Nat
deriving Repr, DecidableEq

/-- `AgentRunner.get_session_info(user_id)`: the comprehension
`[key.split('_', 1)[1] for key in self.sessions.keys() if key.startswith(f"{user_id}_")]`
followed by the result dict. -/
def get_session_info {σ ρ : Type} (st : AgentRunnerState σ ρ) (user_id : String) :
    SessionInfoResult :=
  let user_sessions :=
    ((dictKeys st.sessions).filter (fun key => strStartsWith key (user_id ++ "_"))).map
      splitOnceTail
  { user_id := user_id,
    active_sessions := user_sessions,
    total_sessions := user_sessions.length }

/-- One event of the external engine's stream, as inspected by
`run_agent`: `is_final_response` is `event.is_final_response()`;
`content` is the list of the texts of `event.content.parts` (a missing
`content` or a missing/empty `parts` is the empty list, both falsy in the
guard `event.content and event.content.parts`); `escalate` is the truth of
`event.actions and event.actions.escalate`; `error_message` is
`event.error_message` (`none` for Python `None`). -/
structure Event where
  is_final_response : Bool
  content : List String
  escalate : Bool
  error_message : Option String
deriving Repr, DecidableEq

/-- Python `event.error_message or 'No specific message.'` (`None` and the
empty string are both falsy). -/
def errorMessageOrDefault : Option String → String
  | some m => if m = "" then "No specific message." else m
  | none => "No specific message."

/-- The outcome of `runner.run_async(...)` as observed by iterating it:
either a finite stream of events that terminates normally, or a stream that
yields a prefix of events and then raises an exception with text `msg`
(submission failure = `raises [] msg`). -/
inductive EngineRun where
  | yields (events : List Event)
  | raises (events : List Event) (msg : String)
deriving Repr, DecidableEq

/-- The `async for event in runner.run_async(...)` loop body of
`run_agent`: walk the events in order carrying `final_response_text`
(initially the fallback string); at the first event with
`is_final_response()` take the first part's text, else the escalation
message, else keep the carried text, and `break`. -/
def drainEvents (final_response_text : String) : List Event → String
  | [] => final_response_text
  | e :: rest =>
    if e.is_final_response then
      match e.content with
      | t :: _ => t
      | [] =>
        if e.escalate then
          "Agent escalated: " ++ errorMessageOrDefault e.error_message
        else final_response_text
    else drainEvents final_response_text rest

/-- The `try ... except` block of `run_agent` around the event loop: if the
engine raises before any final event is consumed, the exception is caught
and converted; if a final event occurs in the yielded prefix, the loop
breaks first and the pending exception is never raised. -/
def runEventLoop : EngineRun → String
  | EngineRun.yields evs => drainEvents "Agent did not produce a final response." evs
  | EngineRun.raises evs msg =>
    if evs.any (fun e => e.is_final_response) then
      drainEvents "Agent did not produce a final response." evs
    else "Sorry, I encountered an error: " ++ msg

/-- `AgentRunner.run_agent(prompt, user_id, session_id)`.

`engine runner user_id session_id prompt` models submitting
`types.Content(role='user', parts=[types.Part(text=prompt)])` via
`runner.run_async(user_id=..., session_id=..., new_message=...)` and
iterating the stream.  `prepare_session` failures happen before the
`try` block and propagate (`raise`) to the caller; the lookup
`self.runners[session_key]` raises `KeyError` when the key is absent, also
outside the `try`.  The result pairs the outcome (returned response text or
propagated exception text) with the final state. -/
def run_agent {σ ρ : Type}
    (createSession : String → String → Except String σ) (mkRunner : ρ)
    (engine : ρ → String → String → String → EngineRun)
    (default_user_id : String)
    (st : AgentRunnerState σ ρ) (prompt : String)
    (user_id : Option String) (session_id : Option String) :
    Except String String × AgentRunnerState σ ρ :=
  let user_id := match user_id with
    | none => default_user_id
    | some u => u
  match prepare_session createSession mkRunner st user_id session_id with
  | (Except.error e, st₁) => (Except.error e, st₁)
  | (Except.ok sid, st₁) =>
    let session_key := user_id ++ "_" ++ sid
    match dictGet st₁.runners session_key with
    | none => (Except.error ("KeyError: " ++ session_key), st₁)
    | some runner => (Except.ok (runEventLoop (engine runner user_id sid prompt)), st₁)

/-- The body of a successful `POST /chat` response (`ChatResponse`). -/
structure ChatResponseBody where
  response : String
  user_id : String
  session_id : String
  status : String
deriving Repr, DecidableEq

/-- The `chat_with_brad` handler of `fastapi_app.py` (runner initialized).
It calls `run_agent` with the request's fields; on success it reports
`session_id = request.session_id`, replaced by the literal
`f"session_{request.user_id}_1"` when the request omitted it — computed
without consulting the registry.  A raised exception becomes an
`HTTPException(500, "Failed to process chat request: " + str(e))`,
modelled as the `.error` case. -/
def chat_with_brad {σ ρ : Type}
    (createSession : String → String → Except String σ) (mkRunner : ρ)
    (engine : ρ → String → String → String → EngineRun)
    (st : AgentRunnerState σ ρ)
    (prompt : String) (user_id : String) (session_id : Option String) :
    Except String (ChatResponseBody × AgentRunnerState σ ρ) :=
  match run_agent createSession mkRunner engine "api_user" st prompt
      (some user_id) session_id with
  | (Except.error e, _) => Except.error ("Failed to process chat request: " ++ e)
  | (Except.ok response, st₁) =>
    let sid := match session_id with
      | none => "session_" ++ user_id ++ "_1"
      | some s => s
    Except.ok
      ({ response := response, user_id := user_id, session_id := sid,
         status := "success" }, st₁)

/-- The body returned by `DELETE /sessions/{user_id}/{session_id}`. -/
structure DeleteResponseBody where
  message : String
  note : String
deriving Repr, DecidableEq

/-- The `delete_session` handler of `fastapi_app.py`: a placeholder that
returns an acknowledgement body and touches no state. -/
def delete_session {σ ρ : Type} (st : AgentRunnerState σ ρ)
    (user_id : String) (session_id : String) :
    DeleteResponseBody × AgentRunnerState σ ρ :=
  ({ message := "Session deletion requested for user " ++ user_id ++
      ", session " ++ session_id,
     note := "Session deletion not yet implemented" }, st)

/-! ### The image tool (`Angelina/angelina/tools.py`) -/

/-- One element of `response.candidates[0].content.parts`: `inline_data.data`
as a byte list (the part reaching the success path of `generate_image`). -/
structure PartData where
  inline_data : List Nat
deriving Repr, DecidableEq

/-- A `generate_content` response as inspected by `generate_image`:
`candidates` with, for each, the parts of its `content` (a missing
`content.parts` is the empty list, falsy in the guard). -/
structure GenResponse where
  candidates : List (List PartData)
deriving Repr, DecidableEq

/-- The dict returned by `generate_image`. -/
structure ImageToolResult where
  status : String
  filename : Option String
  message : String
deriving Repr, DecidableEq

/-- `generate_image(prompt, size)` of `Angelina/angelina/tools.py`.

`call` models `client.models.generate_content(...)`: `.error e` is a raised
exception with `str(e) = e`.  `saveImage data filename` models
`Image.open(io.BytesIO(data))` followed by `image.save(filename)`: `.error`
is an exception raised while decoding or saving (caught by the same
`except`), `.ok` means the file was written.  `pid` is `os.getpid()` and
`promptHash` the (environment-dependent) Python `hash(prompt)` reduced
`% 1000`.  The result pairs the returned dict with the list of files
written. -/
def generate_image
    (call : Except String GenResponse)
    (saveImage : List Nat → String → Except String Unit)
    (pid promptHash : Nat) :
    ImageToolResult × List String :=
  match call with
  | Except.error e =>
    ({ status := "error", filename := none,
       message := "An internal error occurred during image generation: " ++ e }, [])
  | Except.ok response =>
    match response.candidates with
    | (p :: _) :: _ =>
      let filename := "generated_image_" ++ Nat.repr pid ++ "_" ++
        Nat.repr (promptHash % 1000) ++ ".png"
      match saveImage p.inline_data filename with
      | Except.ok _ =>
        ({ status := "success", filename := some filename,
           message := "Image generated and saved as " ++ filename ++
             ". Inform the user." }, [filename])
      | Except.error e =>
        ({ status := "error", filename := none,
           message := "An internal error occurred during image generation: " ++ e }, [])
    | [] :: _ =>
      ({ status := "error", filename := none,
         message := "Image generation failed: No image data returned." }, [])
    | [] =>
      ({ status := "error", filename := none,
         message := "Image generation failed: No image data returned." }, [])

/-! ### Helper lemmas -/

theorem dictKeys_append {σ : Type} (l₁ l₂ : List (String × σ)) :
    dictKeys (l₁ ++ l₂) = dictKeys l₁ ++ dictKeys l₂ := by
  simp [dictKeys]

theorem hasKey_append_self {σ : Type} (l : List (String × σ)) (k : String) (v : σ) :
    hasKey (l ++ [(k, v)]) k := by
  simp [hasKey, dictKeys]

/-- The session id `prepare_session` settles on before touching the dicts. -/
theorem prepare_session_some_shape {σ ρ : Type}
    (cs : String → String → Except String σ) (mk : ρ)
    (st : AgentRunnerState σ ρ) (u sid : String) :
    prepare_session cs mk st u (some sid) =
      (if hasKey st.sessions (u ++ "_" ++ sid) then (Except.ok sid, st)
       else
        match cs u sid with
        | Except.error e => (Except.error e, st)
        | Except.ok session =>
          (Except.ok sid,
           { sessions := st.sessions ++ [(u ++ "_" ++ sid, session)],
             runners := st.runners ++ [(u ++ "_" ++ sid, mk)] })) := rfl

/-- `prepare_session` with an absent session id, after synthesis. -/
theorem prepare_session_none_shape {σ ρ : Type}
    (cs : String → String → Except String σ) (mk : ρ)
    (st : AgentRunnerState σ ρ) (u : String) :
    prepare_session cs mk st u none =
      prepare_session cs mk st u
        (some ("session_" ++ u ++ "_" ++ Nat.repr (st.sessions.length + 1))) := rfl

/-- On success, `prepare_session` returns the session id it settled on and a
state in which the corresponding composite key is present. -/
theorem prepare_session_ok {σ ρ : Type}
    (cs : String → String → Except String σ) (mk : ρ)
    (st st₁ : AgentRunnerState σ ρ) (u sid sid₁ : String)
    (h : prepare_session cs mk st u (some sid) = (Except.ok sid₁, st₁)) :
    sid₁ = sid ∧ hasKey st₁.sessions (u ++ "_" ++ sid) := by
  rw [prepare_session_some_shape] at h
  by_cases hk : hasKey st.sessions (u ++ "_" ++ sid)
  · rw [if_pos hk] at h
    simp only [Prod.mk.injEq, Except.ok.injEq] at h
    exact ⟨h.1.symm, h.2 ▸ hk⟩
  · rw [if_neg hk] at h
    cases hcs : cs u sid with
    | error e => rw [hcs] at h; simp at h
    | ok session =>
      rw [hcs] at h
      simp only [Prod.mk.injEq, Except.ok.injEq] at h
      refine ⟨h.1.symm, ?_⟩
      rw [← h.2]
      exact hasKey_append_self _ _ _

/-! ### C1 -/

/-- C1: calling `prepare_session` a second time with the same
`(user_id, session_id)` pair returns the same session id as the first call
and leaves the `sessions` and `runners` dicts exactly as the first call
left them (no second Runner Binding is created). -/
theorem ensureSession_second_call_idempotent {σ ρ : Type}
    (cs : String → String → Except String σ) (mk : ρ)
    (st st₁ : AgentRunnerState σ ρ) (u sid sid₁ : String)
    (h : prepare_session cs mk st u (some sid) = (Except.ok sid₁, st₁)) :
    sid₁ = sid ∧
      prepare_session cs mk st₁ u (some sid) = (Except.ok sid, st₁) := by
  obtain ⟨hsid, hkey⟩ := prepare_session_ok cs mk st st₁ u sid sid₁ h
  exact ⟨hsid, by rw [prepare_session_some_shape, if_pos hkey]⟩

/-- C1 witness: a concrete first call on the empty registry, then the
second call with the same pair. -/
theorem ensureSession_second_call_idempotent_witness :
    "s1" = "s1" ∧
      prepare_session (fun _ _ => Except.ok 0) () (AgentRunnerState.mk
          [("u1_s1", 0)] [("u1_s1", ())]) "u1" (some "s1") =
        (Except.ok "s1", AgentRunnerState.mk [("u1_s1", 0)] [("u1_s1", ())]) :=
  ensureSession_second_call_idempotent (fun _ _ => Except.ok 0) ()
    (initialState Nat Unit) (AgentRunnerState.mk [("u1_s1", 0)] [("u1_s1", ())])
    "u1" "s1" "s1" rfl

/-! ### C6 -/

/-- C6: when `session_id` is absent, the id `prepare_session` returns on
success is `"session_" + user_id + "_" + str(len(self.sessions) + 1)`,
with the count taken over all sessions of all users. -/
theorem ensureSession_synthesized_id {σ ρ : Type}
    (cs : String → String → Except String σ) (mk : ρ)
    (st st₁ : AgentRunnerState σ ρ) (u sid₁ : String)
    (h : prepare_session cs mk st u none = (Except.ok sid₁, st₁)) :
    sid₁ = "session_" ++ u ++ "_" ++ Nat.repr (st.sessions.length + 1) := by
  rw [prepare_session_none_shape] at h
  exact (prepare_session_ok cs mk st st₁ u _ sid₁ h).1

/-- C6 witness: on the empty registry, `prepare_session "u1" None` returns
`"session_u1_1"`. -/
theorem ensureSession_synthesized_id_witness :
    "session_u1_1" =
      "session_" ++ "u1" ++ "_" ++
        Nat.repr ((initialState Nat Unit).sessions.length + 1) :=
  ensureSession_synthesized_id (fun _ _ => Except.ok 0) ()
    (initialState Nat Unit)
    (AgentRunnerState.mk [("u1_session_u1_1", 0)] [("u1_session_u1_1", ())])
    "u1" "session_u1_1" rfl

/-! ### C7 -/

/-- C7: if the composite key is not yet present and the external engine
rejects session creation, `prepare_session` propagates the exception and
the `sessions` and `runners` dicts are exactly as before the call. -/
theorem ensureSession_engine_failure_no_partial_insert {σ ρ : Type}
    (cs : String → String → Except String σ) (mk : ρ)
    (st : AgentRunnerState σ ρ) (u sid e : String)
    (hfresh : ¬ hasKey st.sessions (u ++ "_" ++ sid))
    (herr : cs u sid = Except.error e) :
    prepare_session cs mk st u (some sid) = (Except.error e, st) := by
  rw [prepare_session_some_shape, if_neg hfresh, herr]

/-- C7 witness: a rejecting engine on the empty registry. -/
theorem ensureSession_engine_failure_no_partial_insert_witness :
    prepare_session (fun _ _ => (Except.error "boom" : Except String Nat)) ()
        (initialState Nat Unit) "u1" (some "s1") =
      (Except.error "boom", initialState Nat Unit) :=
  ensureSession_engine_failure_no_partial_insert
    (fun _ _ => Except.error "boom") () (initialState Nat Unit) "u1" "s1" "boom"
    (by decide) rfl

/-! ### String lemmas for `get_session_info` -/

theorem data_append (s t : String) : (s ++ t).data = s.data ++ t.data := by
  cases s; cases t; rfl

theorem data_mk (l : List Char) : (String.mk l).data = l := rfl

theorem mk_data (s : String) : String.mk s.data = s := by
  cases s; rfl

theorem string_eq_of_data_eq {s t : String} (h : s.data = t.data) : s = t := by
  cases s; cases t; exact congrArg String.mk h

theorem key_data (u s : String) : (u ++ "_" ++ s).data = u.data ++ '_' :: s.data := by
  rw [data_append, data_append]
  simp [show ("_" : String).data = ['_'] from rfl]

/-- `key.startswith(f"{u}_")` on a key of the shape `f"{a}_{s}"` with
underscore-free `a` and `u` decides `a = u`. -/
theorem dataStartsWith_underscore (a b tail : List Char)
    (ha : '_' ∉ a) (hb : '_' ∉ b) :
    dataStartsWith (b ++ ['_']) (a ++ '_' :: tail) = decide (a = b) := by
  induction b generalizing a with
  | nil =>
    cases a with
    | nil => simp [dataStartsWith]
    | cons c a' =>
      have hc : ¬ ('_' = c) := fun h => ha (h ▸ List.mem_cons_self _ _)
      simp [dataStartsWith, hc]
  | cons d b' ih =>
    have hd : ¬ (d = '_') := fun h => hb (h ▸ List.mem_cons_self _ _)
    have hb' : '_' ∉ b' := fun h => hb (List.mem_cons_of_mem _ h)
    cases a with
    | nil =>
      simp [dataStartsWith, hd]
    | cons c a' =>
      have ha' : '_' ∉ a' := fun h => ha (List.mem_cons_of_mem _ h)
      simp only [List.cons_append, dataStartsWith, ih a' ha' hb']
      by_cases hdc : d = c
      · subst hdc
        simp [ih a' ha' hb']
      · have hcd : ¬ (c = d) := fun h => hdc h.symm
        simp [hdc, hcd]

theorem dropWhile_underscore (a tail : List Char) (ha : '_' ∉ a) :
    (a ++ '_' :: tail).dropWhile (fun c => c ≠ '_') = '_' :: tail := by
  induction a with
  | nil => simp [List.dropWhile]
  | cons c a' ih =>
    have hc : ¬ (c = '_') := fun h => ha (h ▸ List.mem_cons_self _ _)
    have ha' : '_' ∉ a' := fun h => ha (List.mem_cons_of_mem _ h)
    simp [List.dropWhile, hc]
    simpa using ih ha'

/-- `f"{u}_{s}".split('_', 1)[1] = s` for underscore-free `u`. -/
theorem splitOnceTail_key (u s : String) (hu : '_' ∉ u.data) :
    splitOnceTail (u ++ "_" ++ s) = s := by
  unfold splitOnceTail
  rw [key_data, dropWhile_underscore u.data s.data hu]
  simp [mk_data]

/-- `f"{a}_{s}".startswith(f"{u}_")` decides `a = u` for underscore-free
`a` and `u`. -/
theorem strStartsWith_key (u a s : String) (hu : '_' ∉ u.data)
    (ha : '_' ∉ a.data) :
    strStartsWith (a ++ "_" ++ s) (u ++ "_") = decide (a = u) := by
  unfold strStartsWith
  rw [key_data, data_append]
  rw [show ("_" : String).data = ['_'] from rfl]
  rw [dataStartsWith_underscore a.data u.data s.data ha hu]
  by_cases h : a = u
  · subst h; simp
  · have hd : a.data ≠ u.data := fun hdata => h (string_eq_of_data_eq hdata)
    simp [h, hd]

/-! ### C2 -/

/-- C2 counterexample: ensure the single session `"s1"` for user `"a_b"`
(whose id contains an underscore); `get_session_info "a_b"` then reports
`["b_s1"]` — the key is cut at the first underscore — so the returned list
does not contain the one session id that was ensured for that user. -/
theorem listSessions_underscore_user_counterexample :
    (get_session_info
        ((prepare_session (fun _ _ => Except.ok 0) ()
            (initialState Nat Unit) "a_b" (some "s1")).2) "a_b").active_sessions
        = ["b_s1"] ∧
      "s1" ∉ (get_session_info
        ((prepare_session (fun _ _ => Except.ok 0) ()
            (initialState Nat Unit) "a_b" (some "s1")).2) "a_b").active_sessions := by
  constructor
  · rfl
  · decide

/-- C2 amended: restricted to underscore-free user ids.  If the session
keys are exactly those built by `prepare_session` from `(user, session)`
pairs whose user ids contain no underscore, then for any underscore-free
`u` the comprehension of `get_session_info` returns exactly the session ids
ensured for `u`, in insertion order — and hence never a session id ensured
for a different user. -/
theorem listSessions_exact_for_underscore_free_users {σ ρ : Type}
    (st : AgentRunnerState σ ρ) (pairs : List (String × String)) (u : String)
    (hkeys : dictKeys st.sessions = pairs.map (fun p => p.1 ++ "_" ++ p.2))
    (hfree : ∀ p ∈ pairs, '_' ∉ p.1.data)
    (hu : '_' ∉ u.data) :
    (get_session_info st u).active_sessions =
      (pairs.filter (fun p => decide (p.1 = u))).map Prod.snd := by
  unfold get_session_info
  simp only
  rw [hkeys]
  clear hkeys
  revert hfree
  induction pairs with
  | nil => intro _; simp
  | cons p rest ih =>
    intro hfree
    obtain ⟨a, s⟩ := p
    have hpa : '_' ∉ a.data := hfree (a, s) (List.mem_cons_self _ _)
    have hrest : ∀ q ∈ rest, '_' ∉ q.1.data :=
      fun q hq => hfree q (List.mem_cons_of_mem _ hq)
    simp only [List.map_cons, List.filter_cons]
    rw [strStartsWith_key u a s hu hpa]
    by_cases h : a = u
    · subst h
      simp [splitOnceTail_key a s hu, ih hrest]
    · simp [h, ih hrest]

/-- C2 amended witness: two underscore-free users, one session each. -/
theorem listSessions_exact_for_underscore_free_users_witness :
    (get_session_info
        (AgentRunnerState.mk [("u1_s1", 0), ("u2_s2", 0)]
          [("u1_s1", ()), ("u2_s2", ())]) "u1").active_sessions =
      ([("u1", "s1"), ("u2", "s2")].filter
        (fun p => decide (p.1 = "u1"))).map Prod.snd :=
  listSessions_exact_for_underscore_free_users
    (AgentRunnerState.mk [("u1_s1", 0), ("u2_s2", 0)] [("u1_s1", ()), ("u2_s2", ())])
    [("u1", "s1"), ("u2", "s2")] "u1" (by decide) (by decide) (by decide)

/-! ### Event-loop lemmas -/

theorem drainEvents_no_final (d : String) (evs : List Event)
    (h : ∀ e ∈ evs, e.is_final_response = false) :
    drainEvents d evs = d := by
  induction evs with
  | nil => rfl
  | cons e rest ih =>
    have he := h e (List.mem_cons_self _ _)
    simp only [drainEvents, he, Bool.false_eq_true, if_false]
    exact ih (fun x hx => h x (List.mem_cons_of_mem _ hx))

theorem drainEvents_first_final (d : String) (pre post : List Event) (e : Event)
    (hpre : ∀ x ∈ pre, x.is_final_response = false)
    (hfin : e.is_final_response = true) :
    drainEvents d (pre ++ e :: post) =
      match e.content with
      | t :: _ => t
      | [] =>
        if e.escalate then
          "Agent escalated: " ++ errorMessageOrDefault e.error_message
        else d := by
  induction pre with
  | nil =>
    simp only [List.nil_append, drainEvents, hfin, if_true]
  | cons x xs ih =>
    have hx := hpre x (List.mem_cons_self _ _)
    simp only [List.cons_append, drainEvents, hx, Bool.false_eq_true, if_false]
    exact ih (fun y hy => hpre y (List.mem_cons_of_mem _ hy))

/-- After a successful `prepare_session` and runner lookup, `run_agent`
returns the drained event stream's text and leaves the state as
`prepare_session` left it. -/
theorem run_agent_ok_shape {σ ρ : Type}
    (cs : String → String → Except String σ) (mk : ρ)
    (engine : ρ → String → String → String → EngineRun)
    (du : String) (st st₁ : AgentRunnerState σ ρ) (prompt u : String)
    (sid_opt : Option String) (sid : String) (r : ρ)
    (hprep : prepare_session cs mk st u sid_opt = (Except.ok sid, st₁))
    (hrun : dictGet st₁.runners (u ++ "_" ++ sid) = some r) :
    run_agent cs mk engine du st prompt (some u) sid_opt =
      (Except.ok (runEventLoop (engine r u sid prompt)), st₁) := by
  simp [run_agent, hprep, hrun]

/-! ### C3 -/

/-- C3: `run_agent` catches an exception raised by the external engine
while submitting or iterating the event stream (no final event was seen
before the raise) and returns the string
`"Sorry, I encountered an error: " + str(e)` instead of re-raising. -/
theorem runTurn_engine_failure_converted {σ ρ : Type}
    (cs : String → String → Except String σ) (mk : ρ)
    (engine : ρ → String → String → String → EngineRun)
    (du : String) (st st₁ : AgentRunnerState σ ρ) (prompt u : String)
    (sid_opt : Option String) (sid : String) (r : ρ)
    (evs : List Event) (msg : String)
    (hprep : prepare_session cs mk st u sid_opt = (Except.ok sid, st₁))
    (hrun : dictGet st₁.runners (u ++ "_" ++ sid) = some r)
    (hengine : engine r u sid prompt = EngineRun.raises evs msg)
    (hnofinal : ∀ e ∈ evs, e.is_final_response = false) :
    run_agent cs mk engine du st prompt (some u) sid_opt =
      (Except.ok ("Sorry, I encountered an error: " ++ msg), st₁) := by
  rw [run_agent_ok_shape cs mk engine du st st₁ prompt u sid_opt sid r hprep hrun,
    hengine]
  have hany : evs.any (fun e => e.is_final_response) = false := by
    rw [List.any_eq_false]
    intro x hx
    simp [hnofinal x hx]
  simp [runEventLoop, hany]

/-- C3 witness: an engine that raises `"boom"` right after submission. -/
theorem runTurn_engine_failure_converted_witness :
    run_agent (fun _ _ => Except.ok 0) ()
        (fun _ _ _ _ => EngineRun.raises [] "boom") "api_user"
        (initialState Nat Unit) "hello" (some "u1") (some "s1") =
      (Except.ok ("Sorry, I encountered an error: " ++ "boom"),
       AgentRunnerState.mk [("u1_s1", 0)] [("u1_s1", ())]) :=
  runTurn_engine_failure_converted (fun _ _ => Except.ok 0) ()
    (fun _ _ _ _ => EngineRun.raises [] "boom") "api_user"
    (initialState Nat Unit) (AgentRunnerState.mk [("u1_s1", 0)] [("u1_s1", ())])
    "hello" "u1" (some "s1") "s1" () [] "boom" rfl rfl rfl
    (fun e he => absurd he (List.not_mem_nil e))

/-! ### C4 -/

/-- C4: if the engine's finite event stream terminates with no event marked
final, `run_agent` returns exactly
`"Agent did not produce a final response."`. -/
theorem runTurn_no_final_event_fallback {σ ρ : Type}
    (cs : String → String → Except String σ) (mk : ρ)
    (engine : ρ → String → String → String → EngineRun)
    (du : String) (st st₁ : AgentRunnerState σ ρ) (prompt u : String)
    (sid_opt : Option String) (sid : String) (r : ρ) (evs : List Event)
    (hprep : prepare_session cs mk st u sid_opt = (Except.ok sid, st₁))
    (hrun : dictGet st₁.runners (u ++ "_" ++ sid) = some r)
    (hengine : engine r u sid prompt = EngineRun.yields evs)
    (hnofinal : ∀ e ∈ evs, e.is_final_response = false) :
    run_agent cs mk engine du st prompt (some u) sid_opt =
      (Except.ok "Agent did not produce a final response.", st₁) := by
  rw [run_agent_ok_shape cs mk engine du st st₁ prompt u sid_opt sid r hprep hrun,
    hengine]
  simp only [runEventLoop]
  rw [drainEvents_no_final _ _ hnofinal]

/-- C4 witness: a stream of two non-final events. -/
theorem runTurn_no_final_event_fallback_witness :
    run_agent (fun _ _ => Except.ok 0) ()
        (fun _ _ _ _ => EngineRun.yields
          [Event.mk false ["draft"] false none, Event.mk false [] false none])
        "api_user" (initialState Nat Unit) "hello" (some "u1") (some "s1") =
      (Except.ok "Agent did not produce a final response.",
       AgentRunnerState.mk [("u1_s1", 0)] [("u1_s1", ())]) :=
  runTurn_no_final_event_fallback (fun _ _ => Except.ok 0) ()
    (fun _ _ _ _ => EngineRun.yields
      [Event.mk false ["draft"] false none, Event.mk false [] false none])
    "api_user" (initialState Nat Unit)
    (AgentRunnerState.mk [("u1_s1", 0)] [("u1_s1", ())])
    "hello" "u1" (some "s1") "s1" ()
    [Event.mk false ["draft"] false none, Event.mk false [] false none]
    rfl rfl rfl (by decide)

/-! ### C5 -/

/-- C5: `run_agent` consumes events in order and stops at the first event
marked final; if that event carries content with at least one part the
result is the first part's text; otherwise, if it carries an escalation
signal, the result is `"Agent escalated: "` followed by the event's error
message, or `"Agent escalated: No specific message."` when the error
message is absent (the initial fallback text survives when the final event
has neither). -/
theorem runTurn_first_final_event {σ ρ : Type}
    (cs : String → String → Except String σ) (mk : ρ)
    (engine : ρ → String → String → String → EngineRun)
    (du : String) (st st₁ : AgentRunnerState σ ρ) (prompt u : String)
    (sid_opt : Option String) (sid : String) (r : ρ)
    (pre post : List Event) (e : Event)
    (hprep : prepare_session cs mk st u sid_opt = (Except.ok sid, st₁))
    (hrun : dictGet st₁.runners (u ++ "_" ++ sid) = some r)
    (hengine : engine r u sid prompt = EngineRun.yields (pre ++ e :: post))
    (hpre : ∀ x ∈ pre, x.is_final_response = false)
    (hfin : e.is_final_response = true) :
    run_agent cs mk engine du st prompt (some u) sid_opt =
      (Except.ok
        (match e.content with
         | t :: _ => t
         | [] =>
           if e.escalate then
             "Agent escalated: " ++ errorMessageOrDefault e.error_message
           else "Agent did not produce a final response."), st₁) := by
  rw [run_agent_ok_shape cs mk engine du st st₁ prompt u sid_opt sid r hprep hrun,
    hengine]
  simp only [runEventLoop]
  rw [drainEvents_first_final _ pre post e hpre hfin]

/-- C5 witness: a non-final event followed by a final escalation event with
no error message, then a trailing event that is never consumed. -/
theorem runTurn_first_final_event_witness :
    run_agent (fun _ _ => Except.ok 0) ()
        (fun _ _ _ _ => EngineRun.yields
          [Event.mk false [] false none, Event.mk true [] true none,
           Event.mk true ["late"] false none])
        "api_user" (initialState Nat Unit) "hello" (some "u1") (some "s1") =
      (Except.ok "Agent escalated: No specific message.",
       AgentRunnerState.mk [("u1_s1", 0)] [("u1_s1", ())]) :=
  runTurn_first_final_event (fun _ _ => Except.ok 0) ()
    (fun _ _ _ _ => EngineRun.yields
      [Event.mk false [] false none, Event.mk true [] true none,
       Event.mk true ["late"] false none])
    "api_user" (initialState Nat Unit)
    (AgentRunnerState.mk [("u1_s1", 0)] [("u1_s1", ())])
    "hello" "u1" (some "s1") "s1" ()
    [Event.mk false [] false none] [Event.mk true ["late"] false none]
    (Event.mk true [] true none)
    rfl rfl rfl (by decide) rfl

/-! ### C8 -/

/-- C8: `generate_image` never raises.  When the external response carries
no image data (no candidate, or a first candidate with no content parts) it
returns a `status := "error"` dict and writes no file; when the external
call raises, it returns a `status := "error"` dict whose message carries
the exception text (and also writes no file). -/
theorem generateImage_error_paths
    (saveImage : List Nat → String → Except String Unit) (pid promptHash : Nat) :
    (∀ response : GenResponse,
        (response.candidates = [] ∨ ∃ rest, response.candidates = [] :: rest) →
        (generate_image (Except.ok response) saveImage pid promptHash).1.status
            = "error" ∧
          (generate_image (Except.ok response) saveImage pid promptHash).2 = []) ∧
      ∀ e : String,
        (generate_image (Except.error e) saveImage pid promptHash).1.status
            = "error" ∧
          (generate_image (Except.error e) saveImage pid promptHash).1.message
            = "An internal error occurred during image generation: " ++ e := by
  constructor
  · intro response h
    obtain ⟨cands⟩ := response
    rcases h with h | ⟨rest, h⟩ <;> simp only at h <;> subst h <;>
      simp [generate_image]
  · intro e
    simp [generate_image]

/-- C8 witness: an empty-candidates response and a raising call. -/
theorem generateImage_error_paths_witness :
    (generate_image (Except.ok (GenResponse.mk []))
          (fun _ _ => Except.ok ()) 1 2).1.status = "error" ∧
      (generate_image (Except.ok (GenResponse.mk []))
          (fun _ _ => Except.ok ()) 1 2).2 = [] ∧
      (generate_image (Except.error "boom")
          (fun _ _ => Except.ok ()) 1 2).1.message =
        "An internal error occurred during image generation: " ++ "boom" :=
  ⟨((generateImage_error_paths (fun _ _ => Except.ok ()) 1 2).1
      (GenResponse.mk []) (Or.inl rfl)).1,
   ((generateImage_error_paths (fun _ _ => Except.ok ()) 1 2).1
      (GenResponse.mk []) (Or.inl rfl)).2,
   ((generateImage_error_paths (fun _ _ => Except.ok ()) 1 2).2 "boom").2⟩

/-! ### Decimal representation lemmas for C9 -/

theorem toDigitsCore_length_ge (b : Nat) :
    ∀ (fuel n : Nat) (ds : List Char),
      ds.length + 1 ≤ (Nat.toDigitsCore b (fuel + 1) n ds).length := by
  intro fuel
  induction fuel with
  | zero =>
    intro n ds
    simp only [Nat.toDigitsCore]
    split
    · simp
    · simp [Nat.toDigitsCore]
  | succ f ih =>
    intro n ds
    simp only [Nat.toDigitsCore]
    split
    · simp
    · calc ds.length + 1
          ≤ (Nat.digitChar (n % b) :: ds).length := by simp
        _ ≤ _ := Nat.le_of_succ_le (ih (n / b) (Nat.digitChar (n % b) :: ds))

theorem repr_data_len_ge_two (m : Nat) (hm : 10 ≤ m) :
    2 ≤ (Nat.repr m).data.length := by
  have hdiv : ¬ (m / 10 = 0) := by omega
  have hstep : Nat.toDigitsCore 10 (m + 1) m [] =
      Nat.toDigitsCore 10 m (m / 10) [Nat.digitChar (m % 10)] := by
    conv_lhs => rw [Nat.toDigitsCore]
    simp [hdiv]
  show 2 ≤ (Nat.toDigitsCore 10 (m + 1) m []).length
  rw [hstep]
  generalize m / 10 = k
  generalize Nat.digitChar (m % 10) = d
  have hm1 : m = (m - 1) + 1 := by omega
  rw [hm1]
  exact toDigitsCore_length_ge 10 (m - 1) k [d]

theorem repr_ne_one (m : Nat) (hm : 2 ≤ m) : Nat.repr m ≠ "1" := by
  intro h
  by_cases h10 : 10 ≤ m
  · have hlen := repr_data_len_ge_two m h10
    rw [h] at hlen
    exact absurd hlen (by decide)
  · have hm10 : m < 10 := by omega
    interval_cases m <;> exact absurd h (by decide)

/-- The id the registry synthesizes when at least one session already
exists differs from the id the chat endpoint reports. -/
theorem synthesized_id_ne_reported (u : String) (n : Nat) (hn : 1 ≤ n) :
    "session_" ++ u ++ "_" ++ Nat.repr (n + 1) ≠ "session_" ++ u ++ "_1" := by
  intro h
  have hd := congrArg String.data h
  simp only [data_append, show ("_" : String).data = ['_'] from rfl,
    show ("_1" : String).data = ['_', '1'] from rfl, List.append_assoc,
    List.append_cancel_left_eq, List.singleton_append, List.cons.injEq,
    true_and] at hd
  exact repr_ne_one (n + 1) (by omega)
    (string_eq_of_data_eq (by rw [hd]))

/-! ### C9 -/

/-- C9: when `POST /chat` omits `session_id`, the handler reports
`session_id = "session_" + user_id + "_1"`, a literal computed without
consulting the registry; whenever the registry already holds at least one
session when the turn auto-creates a new one, that reported id differs
from the id the registry actually synthesized and used for the turn. -/
theorem chat_reported_session_id {σ ρ : Type}
    (cs : String → String → Except String σ) (mk : ρ)
    (engine : ρ → String → String → String → EngineRun)
    (st st₁ : AgentRunnerState σ ρ) (prompt u sid : String) (r : ρ)
    (hprep : prepare_session cs mk st u none = (Except.ok sid, st₁))
    (hrun : dictGet st₁.runners (u ++ "_" ++ sid) = some r) :
    chat_with_brad cs mk engine st prompt u none =
        Except.ok
          ({ response := runEventLoop (engine r u sid prompt), user_id := u,
             session_id := "session_" ++ u ++ "_1", status := "success" }, st₁) ∧
      (1 ≤ st.sessions.length → "session_" ++ u ++ "_1" ≠ sid) := by
  constructor
  · simp [chat_with_brad,
      run_agent_ok_shape cs mk engine "api_user" st st₁ prompt u none sid r
        hprep hrun]
  · intro hlen heq
    rw [prepare_session_none_shape] at hprep
    have hsid := (prepare_session_ok cs mk st st₁ u _ sid hprep).1
    rw [hsid] at heq
    exact synthesized_id_ne_reported u st.sessions.length hlen heq.symm

/-- C9 witness: one pre-existing session of another user; the turn for
`"u1"` synthesizes `"session_u1_2"` but the endpoint reports
`"session_u1_1"`. -/
theorem chat_reported_session_id_witness :
    chat_with_brad (fun _ _ => Except.ok 0) ()
          (fun _ _ _ _ => EngineRun.yields [])
          (AgentRunnerState.mk [("u0_s0", 0)] [("u0_s0", ())]) "hi" "u1" none =
        Except.ok
          ({ response := runEventLoop
               ((fun _ _ _ _ => EngineRun.yields []) () "u1" "session_u1_2" "hi"),
             user_id := "u1", session_id := "session_" ++ "u1" ++ "_1",
             status := "success" },
           AgentRunnerState.mk [("u0_s0", 0), ("u1_session_u1_2", 0)]
             [("u0_s0", ()), ("u1_session_u1_2", ())]) ∧
      (1 ≤ (AgentRunnerState.mk [("u0_s0", (0 : Nat))]
          [("u0_s0", ())]).sessions.length →
        "session_" ++ "u1" ++ "_1" ≠ "session_u1_2") :=
  chat_reported_session_id (fun _ _ => Except.ok 0) ()
    (fun _ _ _ _ => EngineRun.yields [])
    (AgentRunnerState.mk [("u0_s0", 0)] [("u0_s0", ())])
    (AgentRunnerState.mk [("u0_s0", 0), ("u1_session_u1_2", 0)]
      [("u0_s0", ()), ("u1_session_u1_2", ())])
    "hi" "u1" "session_u1_2" () rfl rfl

/-! ### C10 -/

/-- C10: `DELETE /sessions/{user_id}/{session_id}` returns the
acknowledgement body and changes no state: the registry is returned
untouched, `get_session_info` is unchanged, and a session id listed for the
user before the call is still listed after it. -/
theorem deleteSession_stub_no_state_change {σ ρ : Type}
    (st : AgentRunnerState σ ρ) (u s : String) :
    (delete_session st u s).2 = st ∧
      (delete_session st u s).1 =
        DeleteResponseBody.mk
          ("Session deletion requested for user " ++ u ++ ", session " ++ s)
          "Session deletion not yet implemented" ∧
      get_session_info (delete_session st u s).2 u = get_session_info st u ∧
      (s ∈ (get_session_info st u).active_sessions →
        s ∈ (get_session_info (delete_session st u s).2 u).active_sessions) :=
  ⟨rfl, rfl, rfl, fun h => h⟩

/-- C10 witness: a registry holding session `"s1"` of user `"u1"`; the id
is still listed after the delete call. -/
theorem deleteSession_stub_no_state_change_witness :
    "s1" ∈ (get_session_info
        (delete_session
          (AgentRunnerState.mk [("u1_s1", (0 : Nat))] [("u1_s1", ())])
          "u1" "s1").2 "u1").active_sessions :=
  (deleteSession_stub_no_state_change
      (AgentRunnerState.mk [("u1_s1", (0 : Nat))] [("u1_s1", ())])
      "u1" "s1").2.2.2 (by decide)

end AgentTrial
